import Mathlib

/-!
Verification development for the prompt-composition core of
src/bot/prompts_idss.py (the Context Composer).

Modelling conventions, used consistently below:
* Python floats are modelled as rationals; arithmetic on them is exact.
* Python datetimes are modelled as microseconds since the Unix epoch
  (an integer); an aware datetime converted to UTC is such an integer,
  a naive parsed datetime carries an optional UTC-offset in seconds.
* Python dicts with a fixed key set are modelled as structures whose
  fields are Option-valued when the source reads them with dict.get;
  a field equal to none models an absent key.
* Python truthiness of an optional string (None and the empty string are
  falsy) is modelled by pyTruthyStr; truthiness of a news-entry dict
  (the empty dict is falsy) is modelled by entryTruthy.
* Object identity of list elements (the `is` comparison in the source)
  is modelled by list position: the key-entry selection returns the
  index of the chosen element together with the element.
-/

/-! ## Python string and option helpers -/

/-- ASCII whitespace set stripped by Python str.strip (default). -/
def pyIsSpace (c : Char) : Bool :=
  c == ' ' || c == '\t' || c == '\n' || c == '\r' || c == '\x0b' || c == '\x0c'

/-- Python str.strip with default argument. -/
def pyStrip (s : String) : String :=
  String.mk (((s.data.dropWhile pyIsSpace).reverse.dropWhile pyIsSpace).reverse)

/-- Python str.lower restricted to ASCII (all inputs in scope are ASCII). -/
def pyLower (s : String) : String :=
  String.mk (s.data.map Char.toLower)

/-- Python str.upper restricted to ASCII. -/
def pyUpper (s : String) : String :=
  String.mk (s.data.map Char.toUpper)

/-- Truthiness of an Optional[str]: None and the empty string are falsy. -/
def pyTruthyStr (o : Option String) : Bool :=
  match o with
  | none => false
  | some s => !(s == "")

/-- Python `a or b` where a is Optional[str] and b is a string. -/
def pyOrStr (a : Option String) (b : String) : String :=
  match a with
  | some s => if s == "" then b else s
  | none => b

/-- Python `a or b` where both operands are Optional[str]. -/
def pyOrOptStr (a b : Option String) : Option String :=
  match a with
  | some s => if s == "" then b else some s
  | none => b

/-- Replace every occurrence of a character by a replacement string
(Python str.replace with a one-character pattern, the only shape the
source uses: Z and the newline). -/
def pyReplaceChar (target : Char) (repl : List Char) : List Char → List Char
  | [] => []
  | c :: rest =>
    (if c == target then repl else [c]) ++ pyReplaceChar target repl rest

/-- String-level wrapper for pyReplaceChar. -/
def pyReplace1 (s : String) (target : Char) (repl : String) : String :=
  String.mk (pyReplaceChar target repl.data s.data)

/-- Python str(x) for an Optional[str] rendered inside an f-string:
None prints as the literal text None. -/
def pyShowOptStr (o : Option String) : String :=
  match o with
  | some s => s
  | none => "None"

/-- Lexicographic code-point comparison of char lists, as Python compares
strings with the < and > operators. -/
def charListLt : List Char → List Char → Bool
  | _, [] => false
  | [], _ :: _ => true
  | a :: as_, b :: bs =>
    if a < b then true
    else if b < a then false
    else charListLt as_ bs

/-- Python string strict greater-than. -/
def pyStrGt (a b : String) : Bool :=
  charListLt b.data a.data

/-! ## Numeric formatting (Python floats as rationals) -/

/-- Round to the nearest integer, ties to even, as Python float formatting
rounds a decimal-exact value. -/
def roundHalfEven (q : ℚ) : Int :=
  let f : Int := q.floor
  let frac : ℚ := q - (f : ℚ)
  if frac < 1 / 2 then f
  else if 1 / 2 < frac then f + 1
  else if f % 2 == 0 then f else f + 1

/-- Left-pad a string with zeros to the given width. -/
def natPad (w : Nat) (s : String) : String :=
  String.mk (List.replicate (w - s.length) '0') ++ s

/-- Python format specifier .Nf on a float: fixed-point with N digits after
the decimal point (round half to even on the modelled exact value). -/
def formatFixed (digits : Nat) (q : ℚ) : String :=
  let scaled : ℚ := q * ((10 : ℚ) ^ digits)
  let r : Int := roundHalfEven scaled
  let sign : String := if q < 0 then "-" else ""
  let a : Nat := r.natAbs
  if digits == 0 then sign ++ toString a
  else
    let base : Nat := 10 ^ digits
    sign ++ toString (a / base) ++ "." ++ natPad digits (toString (a % base))

/-- Python format specifier +.Nf: as formatFixed but with an explicit sign. -/
def formatSignedFixed (digits : Nat) (q : ℚ) : String :=
  let scaled : ℚ := q * ((10 : ℚ) ^ digits)
  let r : Int := roundHalfEven scaled
  let sign : String := if q < 0 then "-" else "+"
  let a : Nat := r.natAbs
  if digits == 0 then sign ++ toString a
  else
    let base : Nat := 10 ^ digits
    sign ++ toString (a / base) ++ "." ++ natPad digits (toString (a % base))

/-- The fmt helper of create_trading_prompt: None renders as N/A, a float
as fixed point with the given number of digits. -/
def fmt (value : Option ℚ) (digits : Nat) : String :=
  match value with
  | none => "N/A"
  | some v => formatFixed digits v

/-- Number of decimal digits of the exact expansion of q, capped at 17
(Python repr of a float in the positional range prints the shortest exact
decimal; all values in scope have short exact expansions). -/
def ratDecLen (q : ℚ) : Nat :=
  (((List.range 18).find? (fun k => (q * ((10 : ℚ) ^ k)).den == 1))).getD 17

/-- Python repr of a float (as json.dumps prints numbers), for values in the
positional-notation range with a terminating decimal expansion. -/
def pyFloatRepr (q : ℚ) : String :=
  let sign : String := if q < 0 then "-" else ""
  let a : ℚ := |q|
  let k : Nat := ratDecLen a
  let m : Nat := (roundHalfEven (a * ((10 : ℚ) ^ k))).natAbs
  if k == 0 then sign ++ toString m ++ ".0"
  else
    let base : Nat := 10 ^ k
    sign ++ toString (m / base) ++ "." ++ natPad k (toString (m % base))

/-- json.dumps of a list of floats. -/
def jsonListFloat (l : List ℚ) : String :=
  "[" ++ String.intercalate (", ") (l.map pyFloatRepr) ++ "]"

/-- Lowercase hex digit. -/
def hexDigit (n : Nat) : Char :=
  if n < 10 then Char.ofNat (48 + n) else Char.ofNat (87 + n)

/-- Four lowercase hex digits. -/
def hex4 (n : Nat) : String :=
  String.mk [hexDigit (n / 4096 % 16), hexDigit (n / 256 % 16),
    hexDigit (n / 16 % 16), hexDigit (n % 16)]

/-- json.dumps escaping of one character (ensure_ascii default). -/
def jsonEscapeChar (c : Char) : String :=
  if c == '"' then "\\\""
  else if c == '\\' then "\\\\"
  else if c == '\n' then "\\n"
  else if c == '\t' then "\\t"
  else if c == '\r' then "\\r"
  else if c == '\x08' then "\\b"
  else if c == '\x0c' then "\\f"
  else if c.toNat < 32 || 126 < c.toNat then "\\u" ++ hex4 c.toNat
  else String.singleton c

/-- json.dumps escaping of a string body. -/
def jsonEscape (s : String) : String :=
  String.join (s.data.map jsonEscapeChar)

/-- json.dumps of a string value. -/
def jsonQuote (s : String) : String :=
  "\"" ++ jsonEscape s ++ "\""

/-- json.dumps of an object given already-serialized values, in insertion
order, with the default separators. -/
def jsonObj (fields : List (String × String)) : String :=
  "\x7b" ++
    String.intercalate (", ")
      (fields.map (fun p => jsonQuote p.1 ++ ": " ++ p.2)) ++
  "\x7d"

/-! ## Civil-date arithmetic (proleptic Gregorian, as Python datetime) -/

/-- Gregorian leap year. -/
def isLeap (y : Int) : Bool :=
  (y % 4 == 0 && !(y % 100 == 0)) || y % 400 == 0

/-- Days in a month. -/
def daysInMonth (y : Int) (m : Nat) : Nat :=
  if m == 2 then (if isLeap y then 29 else 28)
  else if m == 4 || m == 6 || m == 9 || m == 11 then 30
  else 31

/-- Days since 1970-01-01 of a civil date (Gregorian calendar). -/
def daysFromCivil (y : Int) (m d : Nat) : Int :=
  let y1 : Int := if m ≤ 2 then y - 1 else y
  let era : Int := Int.fdiv y1 400
  let yoe : Nat := (y1 - era * 400).toNat
  let mp : Nat := if 2 < m then m - 3 else m + 9
  let doy : Nat := (153 * mp + 2) / 5 + d - 1
  let doe : Nat := yoe * 365 + yoe / 4 - yoe / 100 + doy
  era * 146097 + (doe : Int) - 719468

/-- Civil date (year, month, day) of a count of days since 1970-01-01. -/
def civilFromDays (z : Int) : Int × Nat × Nat :=
  let z1 : Int := z + 719468
  let era : Int := Int.fdiv z1 146097
  let doe : Nat := (z1 - era * 146097).toNat
  let yoe : Nat := (doe - doe / 1460 + doe / 36524 - doe / 146096) / 365
  let y : Int := (yoe : Int) + era * 400
  let doy : Nat := doe - (365 * yoe + yoe / 4 - yoe / 100)
  let mp : Nat := (5 * doy + 2) / 153
  let d : Nat := doy - (153 * mp + 2) / 5 + 1
  let m : Nat := if mp < 10 then mp + 3 else mp - 9
  (if m ≤ 2 then y + 1 else y, m, d)

/-- Zero-padded decimal rendering of a year (%Y / %04d; years in scope are
positive). -/
def pad4 (n : Nat) : String := natPad 4 (toString n)

/-- Two-digit zero-padded decimal. -/
def pad2 (n : Nat) : String := natPad 2 (toString n)

/-- datetime.isoformat() of an aware UTC datetime given as microseconds
since the epoch: date, T, time, fractional part only when nonzero, +00:00. -/
def isoformatUtc (us : Int) : String :=
  let day : Int := Int.fdiv us 86400000000
  let rem : Nat := (us - day * 86400000000).toNat
  let ymd := civilFromDays day
  let secOfDay : Nat := rem / 1000000
  let micro : Nat := rem % 1000000
  pad4 ymd.1.toNat ++ "-" ++ pad2 ymd.2.1 ++ "-" ++ pad2 ymd.2.2 ++ "T" ++
    pad2 (secOfDay / 3600) ++ ":" ++ pad2 (secOfDay % 3600 / 60) ++ ":" ++
    pad2 (secOfDay % 60) ++
    (if micro == 0 then "" else "." ++ natPad 6 (toString micro)) ++
    "+00:00"

/-- strftime of a UTC datetime with format %Y-%m-%d %H:%M:%S %Z
(the %Z of timezone.utc renders as UTC). -/
def strftimeUtc (us : Int) : String :=
  let day : Int := Int.fdiv us 86400000000
  let rem : Nat := (us - day * 86400000000).toNat
  let ymd := civilFromDays day
  let secOfDay : Nat := rem / 1000000
  pad4 ymd.1.toNat ++ "-" ++ pad2 ymd.2.1 ++ "-" ++ pad2 ymd.2.2 ++ " " ++
    pad2 (secOfDay / 3600) ++ ":" ++ pad2 (secOfDay % 3600 / 60) ++ ":" ++
    pad2 (secOfDay % 60) ++ " UTC"

/-! ## datetime.fromisoformat (the input subset exercised by the source:
a four-digit year date with dashed or compact month and day, an optional
time introduced by any single separator character, with colon-separated or
compact components, an optional fractional part after the seconds, and an
optional numeric UTC offset; ranges are validated as Python does). -/

/-- Decimal value of a digit list. -/
def digitsVal (l : List Char) : Nat :=
  l.foldl (fun a c => a * 10 + (c.toNat - 48)) 0

/-- Consume exactly n digits. -/
def takeDigits (n : Nat) (cs : List Char) : Option (Nat × List Char) :=
  let pre := cs.take n
  if pre.length == n && pre.all Char.isDigit then
    some (digitsVal pre, cs.drop n)
  else none

/-- Consume a nonempty run of fractional-second digits; extra digits beyond
microsecond precision are truncated. -/
def parseFraction (cs : List Char) : Option (Nat × List Char) :=
  let digs := cs.takeWhile Char.isDigit
  if digs.length == 0 then none
  else
    let first6 := digs.take 6
    some (digitsVal first6 * 10 ^ (6 - first6.length), cs.drop digs.length)

/-- Parse the time part: returns (seconds of day, microseconds, rest). -/
def parseTimePart (cs : List Char) : Option (Nat × Nat × List Char) := do
  let (hh, r1) ← takeDigits 2 cs
  if 23 < hh then none else
  match r1 with
  | ':' :: r2 =>
    let (mm, r3) ← takeDigits 2 r2
    if 59 < mm then none else
    match r3 with
    | ':' :: r4 =>
      let (ss, r5) ← takeDigits 2 r4
      if 59 < ss then none else
      match r5 with
      | '.' :: r6 =>
        let (micro, r7) ← parseFraction r6
        some (hh * 3600 + mm * 60 + ss, micro, r7)
      | ',' :: r6 =>
        let (micro, r7) ← parseFraction r6
        some (hh * 3600 + mm * 60 + ss, micro, r7)
      | _ => some (hh * 3600 + mm * 60 + ss, 0, r5)
    | _ => some (hh * 3600 + mm * 60, 0, r3)
  | c :: _ =>
    if c.isDigit then do
      let (mm, r3) ← takeDigits 2 r1
      if 59 < mm then none else
      match r3 with
      | d :: _ =>
        if d.isDigit then do
          let (ss, r5) ← takeDigits 2 r3
          if 59 < ss then none else
          match r5 with
          | '.' :: r6 =>
            let (micro, r7) ← parseFraction r6
            some (hh * 3600 + mm * 60 + ss, micro, r7)
          | ',' :: r6 =>
            let (micro, r7) ← parseFraction r6
            some (hh * 3600 + mm * 60 + ss, micro, r7)
          | _ => some (hh * 3600 + mm * 60 + ss, 0, r5)
        else some (hh * 3600 + mm * 60, 0, r3)
      | [] => some (hh * 3600 + mm * 60, 0, r3)
    else some (hh * 3600, 0, r1)
  | [] => some (hh * 3600, 0, r1)

/-- Parse an offset magnitude HH[:MM[:SS]] or compact HH[MM[SS]], consuming
the whole input. -/
def parseOffsetMag (cs : List Char) : Option Nat := do
  let (hh, r1) ← takeDigits 2 cs
  if 23 < hh then none else
  match r1 with
  | [] => some (hh * 3600)
  | ':' :: r2 =>
    let (mm, r3) ← takeDigits 2 r2
    if 59 < mm then none else
    match r3 with
    | [] => some (hh * 3600 + mm * 60)
    | ':' :: r4 =>
      let (ss, r5) ← takeDigits 2 r4
      if 59 < ss then none else
      if r5.isEmpty then some (hh * 3600 + mm * 60 + ss) else none
    | _ => none
  | _ =>
    let (mm, r3) ← takeDigits 2 r1
    if 59 < mm then none else
    match r3 with
    | [] => some (hh * 3600 + mm * 60)
    | _ =>
      let (ss, r5) ← takeDigits 2 r3
      if 59 < ss then none else
      if r5.isEmpty then some (hh * 3600 + mm * 60 + ss) else none

/-- Parse a signed UTC offset, in seconds, consuming the whole input. -/
def parseOffset (cs : List Char) : Option Int :=
  match cs with
  | '+' :: r => (parseOffsetMag r).map (fun n => (n : Int))
  | '-' :: r => (parseOffsetMag r).map (fun n => -(n : Int))
  | _ => none

/-- Parse the date part: returns (year, month, day, rest). -/
def parseDatePart (cs : List Char) : Option (Int × Nat × Nat × List Char) := do
  let (y, r1) ← takeDigits 4 cs
  match r1 with
  | '-' :: r2 => do
    let (mo, r3) ← takeDigits 2 r2
    match r3 with
    | '-' :: r4 => do
      let (d, r5) ← takeDigits 2 r4
      if mo < 1 || 12 < mo then none
      else if d < 1 || daysInMonth (y : Int) mo < d then none
      else some ((y : Int), mo, d, r5)
    | _ => none
  | _ => do
    let (mo, r3) ← takeDigits 2 r1
    let (d, r5) ← takeDigits 2 r3
    if mo < 1 || 12 < mo then none
    else if d < 1 || daysInMonth (y : Int) mo < d then none
    else some ((y : Int), mo, d, r5)

/-- datetime.fromisoformat: on success returns the naive timestamp in
microseconds since the epoch paired with the UTC offset in seconds when
the input carried one (tzinfo), none for a naive result. -/
def parseIsoDatetime (s : String) : Option (Int × Option Int) := do
  let (y, mo, d, rest) ← parseDatePart s.data
  match rest with
  | [] => some (daysFromCivil y mo d * 86400000000, none)
  | _ :: timeChars => do
    let (secs, micro, rest2) ← parseTimePart timeChars
    let naive : Int :=
      daysFromCivil y mo d * 86400000000 + (secs : Int) * 1000000 + (micro : Int)
    match rest2 with
    | [] => some (naive, none)
    | _ => do
      let off ← parseOffset rest2
      some (naive, some off)

/-- UTC microseconds of a parse result: a naive datetime is assumed UTC
(the tzinfo-is-None branch of the source), an aware one is converted to
UTC by subtracting its offset. -/
def utcOfParsed (p : Int × Option Int) : Int :=
  match p.2 with
  | none => p.1
  | some off => p.1 - off * 1000000

/-! ## Data model -/

/-- A news-cache entry; each field models the homonymous dict key, with
none for an absent key. -/
structure NewsEntry where
  published_at : Option String
  date : Option String
  raw_date : Option String
  sentiment : Option String
  sentiment_confidence : Option ℚ
  summary : Option String
  snippet : Option String
  title : Option String
  source : Option String
deriving DecidableEq

/-- The entry with no keys (an empty dict). -/
def emptyEntry : NewsEntry :=
  ⟨none, none, none, none, none, none, none, none, none⟩

/-- Python truthiness of a news-entry dict: an entry with no keys is falsy. -/
def entryTruthy (e : NewsEntry) : Bool :=
  e.published_at.isSome || e.date.isSome || e.raw_date.isSome ||
  e.sentiment.isSome || e.sentiment_confidence.isSome || e.summary.isSome ||
  e.snippet.isSome || e.title.isSome || e.source.isSome

/-- The intraday_series mapping of a market snapshot. -/
structure IntradaySeries where
  mid_prices : List ℚ
  ema20 : List ℚ
  macd : List ℚ
  rsi7 : List ℚ
  rsi14 : List ℚ
  vwap : List ℚ
deriving DecidableEq

/-- The long_term mapping of a market snapshot. -/
structure LongTermBlock where
  ema20 : Option ℚ
  ema50 : Option ℚ
  atr3 : Option ℚ
  atr14 : Option ℚ
  current_volume : Option ℚ
  average_volume : Option ℚ
  macd : List ℚ
  rsi14 : List ℚ
  vwap : List ℚ
deriving DecidableEq

/-- One market snapshot; optional scalar indicators model values the
formatter may receive as None, with none also standing for an absent
price key in the position-price fallback. -/
structure MarketSnapshot where
  price : Option ℚ
  ema20 : Option ℚ
  macd : Option ℚ
  rsi7 : Option ℚ
  intraday_series : IntradaySeries
  long_term : LongTermBlock
deriving DecidableEq

/-- An open position (the per-position dict of state["positions"]). -/
structure Position where
  side : String
  quantity : ℚ
  entry_price : ℚ
  profit_target : ℚ
  stop_loss : ℚ
  invalidation_condition : String
  confidence : ℚ
  risk_idr : Option ℚ
  risk_usd : Option ℚ
  fees_paid : Option ℚ
deriving DecidableEq

/-- The state snapshot read by the composer; start_time in microseconds
since the epoch, UTC. -/
structure TradingState where
  start_time : Int
  invocation_count : Nat
  total_return_pct : Option ℚ
  sharpe_ratio : Option ℚ
  total_balance : Option ℚ
  net_unrealized_pnl : Option ℚ
  total_equity : Option ℚ
  total_fees_paid : Option ℚ
  positions : List (String × Position)
deriving DecidableEq

/-- The config collaborator (spec section 6), passed explicitly. -/
structure TradingConfig where
  SYMBOLS : List String
  SYMBOL_TO_COIN : String → String
  CHECK_INTERVAL : ℚ
  TRADING_FEE_RATE : ℚ

/-- The news-cache collaborator: get_last_refresh_time and the per-coin
result of get_cached_news (the limit argument is applied by the cache). -/
structure NewsCache where
  last_refresh_time : Option String
  cached_news : String → List NewsEntry

/-- Python int() applied to an exact rational (truncation toward zero). -/
def pyIntOfRat (q : ℚ) : Int :=
  if q < 0 then -((-q).floor) else q.floor

/-! ## Freshness Formatter (describe_freshness) -/

/-- The bucketing chain of describe_freshness, applied to the non-negative
whole-second delta (source lines 446-471). -/
def freshness_phrase (seconds : Nat) : String :=
  if seconds < 60 then "just now"
  else
    let minutes := seconds / 60
    if minutes < 60 then
      toString minutes ++ " minute" ++ (if !(minutes == 1) then "s" else "") ++ " ago"
    else
      let hours := minutes / 60
      if hours < 24 then
        toString hours ++ " hour" ++ (if !(hours == 1) then "s" else "") ++ " ago"
      else
        let days := hours / 24
        if days < 7 then
          toString days ++ " day" ++ (if !(days == 1) then "s" else "") ++ " ago"
        else
          let weeks := days / 7
          if weeks < 5 then
            toString weeks ++ " week" ++ (if !(weeks == 1) then "s" else "") ++ " ago"
          else
            let months := days / 30
            if months < 12 then
              toString months ++ " month" ++ (if !(months == 1) then "s" else "") ++ " ago"
            else
              let years := days / 365
              toString years ++ " year" ++ (if !(years == 1) then "s" else "") ++ " ago"

/-- Whole seconds of now minus published, clamped at zero (the negative
delta is replaced by timedelta(0); int truncation of the non-negative
total equals floor). -/
def freshness_seconds (now published_utc : Int) : Nat :=
  ((max (now - published_utc) 0).toNat) / 1000000

/-- describe_freshness (source lines 421-471), with the closed-over `now`
passed explicitly as UTC microseconds. -/
def describe_freshness (now : Int) (entry : NewsEntry) : Option String :=
  let published_candidate := pyOrOptStr entry.published_at entry.date
  let raw_candidate := entry.raw_date
  if !(pyTruthyStr published_candidate) then raw_candidate
  else
    let iso0 := pyStrip (published_candidate.getD "")
    if iso0 == "" then raw_candidate
    else
      let iso_candidate := pyReplace1 iso0 'Z' "+00:00"
      match parseIsoDatetime iso_candidate with
      | none => some (pyOrStr raw_candidate iso_candidate)
      | some p => some (freshness_phrase (freshness_seconds now (utcOfParsed p)))

/-! ## News Sentiment Aggregator (summarize_news_sentiment) -/

/-- The lower-cased sentiment label, defaulting to unknown for an absent
or empty label. -/
def entry_sentiment (e : NewsEntry) : String :=
  pyLower (pyOrStr e.sentiment ("unknown"))

/-- sentiment_weights lookup: positive 1, negative -1, neutral 0, anything
else unrecognized. -/
def sentiment_weight (s : String) : Option ℚ :=
  if s == "positive" then some 1
  else if s == "negative" then some (-1)
  else if s == "neutral" then some 0
  else none

/-- The contribution of one entry to weighted_scores: none for an
unrecognized label, weight times confidence when a numeric confidence is
present, the bare weight otherwise. -/
def entry_score (e : NewsEntry) : Option ℚ :=
  match sentiment_weight (entry_sentiment e) with
  | none => none
  | some w =>
    match e.sentiment_confidence with
    | some c => some (w * c)
    | none => some w

/-- Count of entries carrying the given recognized label. -/
def count_label (entries : List NewsEntry) (lab : String) : Nat :=
  (entries.filter (fun e => entry_sentiment e == lab)).length

/-- net_score: fmean of the weighted scores, 0.0 when that list is empty. -/
def news_net_score (entries : List NewsEntry) : ℚ :=
  let ws := entries.filterMap entry_score
  if ws.isEmpty then 0 else ws.sum / (ws.length : ℚ)

/-- The bias label of a net score (thresholds inclusive). -/
def bias_of_score (q : ℚ) : String :=
  if (0.2 : ℚ) ≤ q then "Bullish tilt"
  else if q ≤ (-0.2 : ℚ) then "Bearish tilt"
  else "Mixed/neutral bias"

/-- The summary line of summarize_news_sentiment. -/
def news_summary_line (entries : List NewsEntry) : String :=
  bias_of_score (news_net_score entries) ++ ": +" ++
    toString (count_label entries ("positive")) ++ " / -" ++
    toString (count_label entries ("negative")) ++ " / =" ++
    toString (count_label entries ("neutral")) ++ " (net score " ++
    formatSignedFixed 2 (news_net_score entries) ++ ")."

/-- The timestamp string used for recency comparison:
published_at or date or the empty string. -/
def entry_ts (e : NewsEntry) : String :=
  pyOrStr (pyOrOptStr e.published_at e.date) ""

/-- The key-entry selection loop of summarize_news_sentiment (source lines
498-505): while the candidate is missing or falsy the current entry seeds
it, afterwards an entry with a nonempty, lexicographically greater
timestamp string replaces it; the index records object identity. -/
def select_key_aux : Option (Nat × NewsEntry) → Nat → List NewsEntry →
    Option (Nat × NewsEntry)
  | key, _, [] => key
  | key, i, e :: rest =>
    let key2 :=
      match key with
      | none => some (i, e)
      | some (j, ke) =>
        if !(entryTruthy ke) then some (i, e)
        else
          let ts_new := entry_ts e
          if !(ts_new == "") && pyStrGt ts_new (entry_ts ke) then some (i, e)
          else some (j, ke)
    select_key_aux key2 (i + 1) rest

/-- Key selection over a whole entry list. -/
def select_key (entries : List NewsEntry) : Option (Nat × NewsEntry) :=
  select_key_aux none 0 entries

/-- key_summary of an entry: summary or snippet or title (default empty),
newlines replaced by spaces, stripped. -/
def entry_headline (e : NewsEntry) : String :=
  pyStrip (pyReplace1
    (pyOrStr (pyOrOptStr e.summary e.snippet) (e.title.getD "")) '\n' " ")

/-- The key-headline line built from the key entry. -/
def news_key_line (now : Int) (ke : NewsEntry) : String :=
  let key_sentiment := pyUpper (pyOrStr ke.sentiment ("unknown"))
  let freshness := describe_freshness now ke
  let base := "Key headline [" ++ key_sentiment ++ "] " ++ entry_headline ke
  if pyTruthyStr freshness then
    base ++ " (published " ++ freshness.getD "" ++ ")"
  else base

/-- summarize_news_sentiment (source lines 473-535): none for an empty
input, otherwise the summary line, the key line (empty when the selected
candidate is falsy) and the key entry with its index (none when the
selected candidate is falsy, from the trailing Python truthiness test). -/
def summarize_news_sentiment (now : Int) (entries : List NewsEntry) :
    Option (String × String × Option (Nat × NewsEntry)) :=
  if entries.isEmpty then none
  else
    let summary_line := news_summary_line entries
    match select_key entries with
    | some (j, ke) =>
      if entryTruthy ke then
        some (summary_line, news_key_line now ke, some (j, ke))
      else some (summary_line, "", none)
    | none => some (summary_line, "", none)

/-! ## Market Block Renderer and Context Composer (create_trading_prompt) -/

/-- The 80-dash separator line. -/
def dashLine : String := String.mk (List.replicate 80 '-')

/-- Elapsed whole minutes since the start time (floor of the second delta
divided by 60, as int of a float floor-division). -/
def minutes_running (now : Int) (state : TradingState) : Int :=
  Int.fdiv (now - state.start_time) 60000000

/-- The intraday interval in whole minutes, int(CHECK_INTERVAL / 60). -/
def interval_minutes (cfg : TradingConfig) : Int :=
  pyIntOfRat (cfg.CHECK_INTERVAL / 60)

/-- The fixed preamble of the document (source lines 408-416). -/
def preamble_lines (cfg : TradingConfig) (now : Int) (state : TradingState) :
    List String :=
  [ "It has been " ++ toString (minutes_running now state) ++
      " minutes since you started trading. ",
    "The current time is " ++ isoformatUtc now ++
      " and you\x27ve been invoked " ++ toString state.invocation_count ++
      " times. ",
    "Below is a variety of state data, price data, and predictive signals so you can discover alpha.",
    "ALL PRICE OR SIGNAL SERIES BELOW ARE ORDERED OLDEST → NEWEST.",
    "Timeframe note: Intraday series use " ++ toString (interval_minutes cfg) ++
      "-minute intervals unless a different interval is explicitly mentioned.",
    dashLine,
    "CURRENT MARKET STATE FOR ALL COINS" ]

/-- news_refresh_str (source lines 387-396): None when the cache reports no
refresh time, the strftime rendering when the time parses, the original
string on a parse failure. -/
def news_refresh_str (nc : NewsCache) : Option String :=
  match nc.last_refresh_time with
  | none => none
  | some s =>
    if s == "" then none
    else
      match parseIsoDatetime (pyReplace1 s 'Z' "+00:00") with
      | some p => some (strftimeUtc (utcOfParsed p))
      | none => some s

/-- The optional refresh line (source lines 418-419). -/
def refresh_lines (nc : NewsCache) : List String :=
  match news_refresh_str nc with
  | some s =>
    if s == "" then [] else ["Latest news cache refresh: " ++ s]
  | none => []

/-- The five-line intraday series sub-block of one snapshot (source lines
551-556); one line per named series, each serialized with json.dumps. -/
def intraday_series_lines (sn : MarketSnapshot) : List String :=
  [ "    mid_prices: " ++ jsonListFloat sn.intraday_series.mid_prices,
    "    ema20: " ++ jsonListFloat sn.intraday_series.ema20,
    "    macd: " ++ jsonListFloat sn.intraday_series.macd,
    "    rsi7: " ++ jsonListFloat sn.intraday_series.rsi7,
    "    rsi14: " ++ jsonListFloat sn.intraday_series.rsi14,
    "    vwap: " ++ jsonListFloat sn.intraday_series.vwap ]

/-- The indicator and series lines of one snapshot (source lines 546-566). -/
def snapshot_lines (cfg : TradingConfig) (coin : String)
    (sn : MarketSnapshot) : List String :=
  [ coin ++ " STOCK SNAPSHOT",
    "- Price: " ++ fmt sn.price 3 ++ ", EMA20: " ++ fmt sn.ema20 3 ++
      ", MACD: " ++ fmt sn.macd 3 ++ ", RSI(7): " ++ fmt sn.rsi7 3,
    "  Intraday series (" ++ toString (interval_minutes cfg) ++
      "-minute, oldest → latest):" ] ++
  intraday_series_lines sn ++
  [ "  Longer-term context (1-hour timeframe):",
    "    EMA20 vs EMA50: " ++ fmt sn.long_term.ema20 3 ++ " / " ++
      fmt sn.long_term.ema50 3,
    "    ATR3 vs ATR14: " ++ fmt sn.long_term.atr3 3 ++ " / " ++
      fmt sn.long_term.atr14 3,
    "    Volume (current/average): " ++ fmt sn.long_term.current_volume 3 ++
      " / " ++ fmt sn.long_term.average_volume 3,
    "    MACD series: " ++ jsonListFloat sn.long_term.macd,
    "    RSI14 series: " ++ jsonListFloat sn.long_term.rsi14,
    "    VWAP series: " ++ jsonListFloat sn.long_term.vwap,
    dashLine ]

/-- One headline line of the news sub-block (source lines 580-600). -/
def news_entry_line (now : Int) (e : NewsEntry) : String :=
  let sentiment0 := pyUpper (pyOrStr e.sentiment ("unknown"))
  let sentiment :=
    match e.sentiment_confidence with
    | some c => sentiment0 ++ " (confidence " ++ formatFixed 2 c ++ ")"
    | none => sentiment0
  let freshness := describe_freshness now e
  let base := "    - [" ++ sentiment ++ "] " ++ entry_headline e ++ " — " ++
    pyShowOptStr e.source
  if pyTruthyStr freshness then
    base ++ " (published " ++ freshness.getD "" ++ ")"
  else base

/-- The news sub-block of one symbol (source lines 572-600): nothing for an
empty list, otherwise a header, the sentiment summary line, the key line
when nonempty, and one line per entry other than the key entry (identity
modelled by index). -/
def news_block_lines (now : Int) (entries : List NewsEntry) : List String :=
  if entries.isEmpty then []
  else
    let s := summarize_news_sentiment now entries
    let headerPart :=
      match s with
      | none => ["  Recent news sentiment:"]
      | some (summary_line, key_line, _) =>
        ["  Recent news sentiment:", "    - " ++ summary_line] ++
          (if key_line == "" then [] else ["    - " ++ key_line])
    let keyIdx : Option Nat :=
      match s with
      | some (_, _, some (j, _)) => some j
      | _ => none
    headerPart ++
      entries.enum.filterMap (fun p =>
        if keyIdx == some p.1 then none else some (news_entry_line now p.2))

/-- The whole block of one configured symbol (source lines 537-602): empty
when the symbol has no snapshot, otherwise the snapshot lines, the news
sub-block and the closing separator. -/
def symbol_block_lines (cfg : TradingConfig) (nc : NewsCache) (now : Int)
    (snaps : List (String × MarketSnapshot)) (symbol : String) :
    List String :=
  let coin := cfg.SYMBOL_TO_COIN symbol
  match List.lookup coin snaps with
  | none => []
  | some data =>
    snapshot_lines cfg coin data ++
      news_block_lines now (nc.cached_news coin) ++ [dashLine]

/-- All market blocks, in the configured symbol order. -/
def market_lines (cfg : TradingConfig) (nc : NewsCache) (now : Int)
    (snaps : List (String × MarketSnapshot)) : List String :=
  cfg.SYMBOLS.flatMap (symbol_block_lines cfg nc now snaps)

/-- current_price of an open position (source lines 624-626): the price of
the snapshot for the coin, the entry price when the coin has no snapshot
or the snapshot has no price key. -/
def position_current_price (snaps : List (String × MarketSnapshot))
    (coin : String) (pos : Position) : ℚ :=
  match List.lookup coin snaps with
  | none => pos.entry_price
  | some d =>
    match d.price with
    | some p => p
    | none => pos.entry_price

/-- Unrealized PnL of an open position (source lines 627-631). -/
def position_pnl (snaps : List (String × MarketSnapshot)) (coin : String)
    (pos : Position) : ℚ :=
  let current := position_current_price snaps coin pos
  if pos.side == "long" then (current - pos.entry_price) * pos.quantity
  else (pos.entry_price - current) * pos.quantity

/-- The risk amount of a position: risk_idr, else risk_usd, else 0. -/
def position_risk (pos : Position) : ℚ :=
  pos.risk_idr.getD (pos.risk_usd.getD 0)

/-- json.dumps of the position payload (source lines 633-650), keys in
insertion order. -/
def position_payload (snaps : List (String × MarketSnapshot)) (coin : String)
    (pos : Position) : String :=
  let current := position_current_price snaps coin pos
  jsonObj
    [ ("symbol", jsonQuote coin),
      ("side", jsonQuote pos.side),
      ("quantity", pyFloatRepr pos.quantity),
      ("entry_price", pyFloatRepr pos.entry_price),
      ("current_price", pyFloatRepr current),
      ("unrealized_pnl", pyFloatRepr (position_pnl snaps coin pos)),
      ("leverage", "1"),
      ("exit_plan", jsonObj
        [ ("profit_target", pyFloatRepr pos.profit_target),
          ("stop_loss", pyFloatRepr pos.stop_loss),
          ("invalidation_condition", jsonQuote pos.invalidation_condition) ]),
      ("confidence", pyFloatRepr pos.confidence),
      ("risk_idr", pyFloatRepr (position_risk pos)),
      ("notional_idr", pyFloatRepr (pos.quantity * current)),
      ("fees_paid", pyFloatRepr (pos.fees_paid.getD 0)) ]

/-- The account and position block (source lines 604-651). -/
def account_lines (cfg : TradingConfig) (state : TradingState)
    (snaps : List (String × MarketSnapshot)) : List String :=
  [ "## HERE IS YOUR ACCOUNT INFORMATION & PERFORMANCE",
    "**Performance Metrics:**",
    "- Total Return (%): " ++ fmt state.total_return_pct 2,
    "- Sharpe Ratio: " ++ fmt state.sharpe_ratio 2,
    "**Account Status:**",
    "- Available Cash: " ++ fmt state.total_balance 2,
    "- Unrealized PnL: " ++ fmt state.net_unrealized_pnl 2,
    "- Current Account Value: " ++ fmt state.total_equity 2,
    "- Total Fees Paid (lifetime): " ++ fmt state.total_fees_paid 2,
    "- Fee Rate Applied (per side): " ++
      formatFixed 3 (cfg.TRADING_FEE_RATE * 100) ++ "%",
    "Open positions and their performance details:" ] ++
  (if state.positions.isEmpty then ["No open positions yet."]
   else state.positions.map (fun p =>
     p.1 ++ " position data: " ++ position_payload snaps p.1 p.2))

/-- The closing instruction line (source lines 653-657, after strip). -/
def closing_line : String :=
  "Based on the above data, provide your trading decision in the required JSON format."

/-- All lines of the composed document, in order: preamble, optional news
refresh line, market blocks, account block, closing line. -/
def prompt_all_lines (cfg : TradingConfig) (nc : NewsCache) (now : Int)
    (state : TradingState) (snaps : List (String × MarketSnapshot)) :
    List String :=
  preamble_lines cfg now state ++ refresh_lines nc ++
    market_lines cfg nc now snaps ++ account_lines cfg state snaps ++
    [closing_line]

/-- create_trading_prompt (source lines 380-659): the composed document.
The ambient inputs the Python function reads on its own - the wall clock
datetime.now and the news_cache module - are passed explicitly as now and
nc. -/
def create_trading_prompt (cfg : TradingConfig) (nc : NewsCache) (now : Int)
    (state : TradingState) (snaps : List (String × MarketSnapshot)) :
    String :=
  String.intercalate ("\n") (prompt_all_lines cfg nc now state snaps)

/-! ## Claims -/

/-- Concrete snapshot used to exhibit the series count of the intraday
block. -/
def snapC2 : MarketSnapshot :=
  ⟨some 100, some 99.5, some 0.1, some 55,
   ⟨[1.5, 2.0], [1.0], [0.5], [50.0], [60.0], [99.0]⟩,
   ⟨some 1, some 2, some 3, some 4, some 5, some 6, [7.0], [8.0], [9.0]⟩⟩

/-- C2, counterexample: the rendered intraday series block of a snapshot
does not contain five named series - on this concrete snapshot (as on
every snapshot) it contains six, one line per series. -/
theorem C2_counterexample : ¬ ((intraday_series_lines snapC2).length = 5) := by
  decide

/-- C2, amended: for every symbol with a snapshot, the rendered intraday
series block contains exactly six named series (mid_prices, ema20, macd,
rsi7, rsi14, vwap), each serialized verbatim with json.dumps as an ordered
array, oldest to newest, with no downsampling and no reordering, and the
block sits verbatim inside the symbol snapshot lines. -/
theorem C2_intraday_block (sn : MarketSnapshot) :
    intraday_series_lines sn =
      [ "    mid_prices: " ++ jsonListFloat sn.intraday_series.mid_prices,
        "    ema20: " ++ jsonListFloat sn.intraday_series.ema20,
        "    macd: " ++ jsonListFloat sn.intraday_series.macd,
        "    rsi7: " ++ jsonListFloat sn.intraday_series.rsi7,
        "    rsi14: " ++ jsonListFloat sn.intraday_series.rsi14,
        "    vwap: " ++ jsonListFloat sn.intraday_series.vwap ] ∧
    (intraday_series_lines sn).length = 6 ∧
    (∀ l : List ℚ, jsonListFloat l =
      "[" ++ String.intercalate (", ") (l.map pyFloatRepr) ++ "]") ∧
    (∀ cfg coin, snapshot_lines cfg coin sn =
      (snapshot_lines cfg coin sn).take 3 ++ intraday_series_lines sn ++
        (snapshot_lines cfg coin sn).drop 9) :=
  ⟨rfl, rfl, fun _ => rfl, fun _ _ => rfl⟩

/-- C4: the rendered unrealized PnL is (current - entry) * quantity for a
long position and (entry - current) * quantity for any non-long side,
where current falls back to the entry price when the coin has no snapshot
or the snapshot has no price; under either fallback the PnL is exactly 0. -/
theorem C4_position_pnl (snaps : List (String × MarketSnapshot))
    (coin : String) (pos : Position) :
    (pos.side = "long" →
      position_pnl snaps coin pos =
        (position_current_price snaps coin pos - pos.entry_price) *
          pos.quantity) ∧
    (¬ (pos.side = "long") →
      position_pnl snaps coin pos =
        (pos.entry_price - position_current_price snaps coin pos) *
          pos.quantity) ∧
    (List.lookup coin snaps = none →
      position_current_price snaps coin pos = pos.entry_price ∧
      position_pnl snaps coin pos = 0) ∧
    (∀ d, List.lookup coin snaps = some d → d.price = none →
      position_current_price snaps coin pos = pos.entry_price ∧
      position_pnl snaps coin pos = 0) := by
  refine ⟨fun h => ?_, fun h => ?_, fun h => ?_, fun d hd hp => ?_⟩
  · simp [position_pnl, h]
  · simp [position_pnl, h]
  · have hc : position_current_price snaps coin pos = pos.entry_price := by
      simp [position_current_price, h]
    exact ⟨hc, by simp [position_pnl, hc]⟩
  · have hc : position_current_price snaps coin pos = pos.entry_price := by
      simp [position_current_price, hd, hp]
    exact ⟨hc, by simp [position_pnl, hc]⟩

/-- Snapshot with live price 1050, for the C4 witness. -/
def snapC4 : MarketSnapshot :=
  ⟨some 1050, none, none, none, ⟨[], [], [], [], [], []⟩,
   ⟨none, none, none, none, none, none, [], [], []⟩⟩

/-- Long position, entry 1000, quantity 10 (the spec sample). -/
def posLongC4 : Position :=
  ⟨"long", 10, 1000, 1100, 950, "stop", 0.8, some 500000, none, some 0⟩

/-- Short position, entry 1000, quantity 10 (the spec sample). -/
def posShortC4 : Position :=
  ⟨"short", 10, 1000, 1100, 950, "stop", 0.8, none, none, none⟩

set_option maxRecDepth 8000 in
/-- C4 witness: the spec samples - long 500, short -500, missing snapshot 0. -/
theorem C4_position_pnl_witness :
    position_pnl [("BBCA", snapC4)] "BBCA" posLongC4 = 500 ∧
    position_pnl [("BBCA", snapC4)] "BBCA" posShortC4 = -500 ∧
    position_pnl [] "BBCA" posLongC4 = 0 := by
  refine ⟨?_, ?_, ?_⟩
  · rw [(C4_position_pnl [("BBCA", snapC4)] "BBCA" posLongC4).1 rfl]
    with_unfolding_all decide
  · rw [(C4_position_pnl [("BBCA", snapC4)] "BBCA" posShortC4).2.1 (by decide)]
    with_unfolding_all decide
  · exact ((C4_position_pnl [] "BBCA" posLongC4).2.2.1 rfl).2

/-- C10: a successfully parsed delta of 360 to 364 whole days (at least
twelve 30-day months but under one 365-day year) renders as the phrase
0 years ago - the year count is a floor division with no lower bound. -/
theorem C10_zero_years (n : Nat) (h1 : 360 ≤ n / 86400)
    (h2 : n / 86400 ≤ 364) : freshness_phrase n = "0 years ago" := by
  have hd : n / 60 / 60 / 24 = n / 86400 := by omega
  have hy : n / 86400 / 365 = 0 := by omega
  simp only [freshness_phrase]
  rw [hd]
  rw [if_neg (by omega : ¬ n < 60)]
  rw [if_neg (by omega : ¬ n / 60 < 60)]
  rw [if_neg (by omega : ¬ n / 60 / 60 < 24)]
  rw [if_neg (by omega : ¬ n / 86400 < 7)]
  rw [if_neg (by omega : ¬ n / 86400 / 7 < 5)]
  rw [if_neg (by omega : ¬ n / 86400 / 30 < 12)]
  rw [hy]
  rfl

/-- C10 witness: a delta of 360 whole days (31104000 seconds) renders as 0 years ago. -/
theorem C10_zero_years_witness :
    360 ≤ 31104000 / 86400 ∧ 31104000 / 86400 ≤ 364 ∧
    freshness_phrase 31104000 = "0 years ago" :=
  ⟨by norm_num, by norm_num, C10_zero_years 31104000 (by norm_num) (by norm_num)⟩

/-- Entry whose published timestamp fails ISO-8601 parsing and which has
no raw_date. -/
def eC3 : NewsEntry :=
  ⟨some " junkZ ", none, none, none, none, none, none, none, none⟩

/-- C3, counterexample: on a parse failure with no raw_date the formatter
does not return the original published string unmodified - it returns the
normalized candidate, stripped and with Z replaced by +00:00. -/
theorem C3_counterexample :
    describe_freshness 0 eC3 ≠ some " junkZ " ∧
    describe_freshness 0 eC3 = some "junk+00:00" := by
  constructor
  · decide
  · decide

/-- C3, amended: for every news entry whose (truthy, nonempty after
stripping) published timestamp fails ISO-8601 parsing, describe_freshness
returns raw_date when that is present and nonempty, and otherwise the
normalized candidate - the published string stripped of surrounding
whitespace with every Z replaced by +00:00 - and never raises. -/
theorem C3_parse_failure_fallback (now : Int) (entry : NewsEntry)
    (h1 : pyTruthyStr (pyOrOptStr entry.published_at entry.date) = true)
    (h2 : ¬ (pyStrip ((pyOrOptStr entry.published_at entry.date).getD "") = ""))
    (h3 : parseIsoDatetime (pyReplace1
      (pyStrip ((pyOrOptStr entry.published_at entry.date).getD ""))
      'Z' "+00:00") = none) :
    describe_freshness now entry =
      some (pyOrStr entry.raw_date (pyReplace1
        (pyStrip ((pyOrOptStr entry.published_at entry.date).getD ""))
        'Z' "+00:00")) := by
  simp [describe_freshness, h1, h2, h3]

/-- C3 witness: the amended fallback evaluated on the concrete entry. -/
theorem C3_parse_failure_fallback_witness :
    parseIsoDatetime (pyReplace1
      (pyStrip ((pyOrOptStr eC3.published_at eC3.date).getD ""))
      'Z' "+00:00") = none ∧
    describe_freshness 0 eC3 =
      some (pyOrStr eC3.raw_date (pyReplace1
        (pyStrip ((pyOrOptStr eC3.published_at eC3.date).getD ""))
        'Z' "+00:00")) :=
  ⟨by decide, C3_parse_failure_fallback 0 eC3 (by decide) (by decide) (by decide)⟩

/-- The bucket thresholds as the spec words them (under 60 seconds, under
60 minutes, under 24 hours, under 7 days, under 5 weeks, under 12
thirty-day months, else 365-day years), on the raw second delta, with
floor-division counts; the comparison definition for the C5 refinement. -/
def freshness_phrase_spec (seconds : Nat) : String :=
  if seconds < 60 then "just now"
  else if seconds < 60 * 60 then
    toString (seconds / 60) ++ " minute" ++
      (if !(seconds / 60 == 1) then "s" else "") ++ " ago"
  else if seconds < 24 * 3600 then
    toString (seconds / 3600) ++ " hour" ++
      (if !(seconds / 3600 == 1) then "s" else "") ++ " ago"
  else if seconds < 7 * 86400 then
    toString (seconds / 86400) ++ " day" ++
      (if !(seconds / 86400 == 1) then "s" else "") ++ " ago"
  else if seconds < 5 * 7 * 86400 then
    toString (seconds / 86400 / 7) ++ " week" ++
      (if !(seconds / 86400 / 7 == 1) then "s" else "") ++ " ago"
  else if seconds < 12 * 30 * 86400 then
    toString (seconds / 86400 / 30) ++ " month" ++
      (if !(seconds / 86400 / 30 == 1) then "s" else "") ++ " ago"
  else
    toString (seconds / 86400 / 365) ++ " year" ++
      (if !(seconds / 86400 / 365 == 1) then "s" else "") ++ " ago"

set_option maxHeartbeats 1000000 in
/-- The cascaded floor divisions of the source agree with the raw-second
thresholds of the spec on every delta. -/
lemma freshness_phrase_eq_spec (n : Nat) :
    freshness_phrase n = freshness_phrase_spec n := by
  have h2 : n / 60 / 60 / 24 = n / 86400 := by omega
  have h1 : n / 60 / 60 = n / 3600 := by omega
  simp only [freshness_phrase, freshness_phrase_spec]
  rw [h2, h1]
  split_ifs <;> first | omega | rfl

/-- C5: for every successfully parsed publish timestamp the formatter
renders the clamped whole-second delta through the bucket chain; negative
deltas clamp to zero; the chain agrees with the spec thresholds
(largest-unit-first, floor division, inclusive bounds, English plurals);
and the seven sample deltas of the spec render exactly as listed. -/
theorem C5_freshness_buckets :
    (∀ (now : Int) (entry : NewsEntry) (p : Int × Option Int),
      parseIsoDatetime (pyReplace1
        (pyStrip ((pyOrOptStr entry.published_at entry.date).getD ""))
        'Z' "+00:00") = some p →
      pyTruthyStr (pyOrOptStr entry.published_at entry.date) = true →
      describe_freshness now entry =
        some (freshness_phrase (freshness_seconds now (utcOfParsed p)))) ∧
    (∀ now pub : Int, now < pub → freshness_seconds now pub = 0) ∧
    (∀ n : Nat, freshness_phrase n = freshness_phrase_spec n) ∧
    (freshness_phrase 30 = "just now" ∧
     freshness_phrase 90 = "1 minute ago" ∧
     freshness_phrase 3600 = "1 hour ago" ∧
     freshness_phrase 90000 = "1 day ago" ∧
     freshness_phrase 691200 = "1 week ago" ∧
     freshness_phrase 3456000 = "1 month ago" ∧
     freshness_phrase 34560000 = "1 year ago") := by
  refine ⟨fun now entry p hp h1 => ?_, fun now pub h => ?_,
    freshness_phrase_eq_spec,
    by decide, by decide, by decide, by decide, by decide, by decide, by decide⟩
  · by_cases h0 :
      pyStrip ((pyOrOptStr entry.published_at entry.date).getD "") = ""
    · rw [h0] at hp
      rw [show parseIsoDatetime (pyReplace1 "" 'Z' "+00:00") = none from
        by decide] at hp
      exact Option.noConfusion hp
    · simp [describe_freshness, h1, h0, hp]
  · unfold freshness_seconds
    rw [max_eq_right (by omega : now - pub ≤ 0)]
    rfl

/-- Entry with a parseable published timestamp, 65 seconds before the
witness instant. -/
def eC5 : NewsEntry :=
  ⟨some "2024-01-02T03:03:00Z", none, none, none, none, none, none, none,
   none⟩

/-- C5 witness: the parse-success path evaluated at a concrete entry. -/
theorem C5_freshness_buckets_witness :
    parseIsoDatetime (pyReplace1
      (pyStrip ((pyOrOptStr eC5.published_at eC5.date).getD ""))
      'Z' "+00:00") = some (1704164580000000, some 0) ∧
    describe_freshness 1704164645000000 eC5 =
      some (freshness_phrase (freshness_seconds 1704164645000000
        (utcOfParsed (1704164580000000, some 0)))) ∧
    freshness_phrase (freshness_seconds 1704164645000000
      (utcOfParsed (1704164580000000, some 0))) = "1 minute ago" :=
  ⟨by decide,
   C5_freshness_buckets.1 1704164645000000 eC5 (1704164580000000, some 0)
     (by decide) (by decide),
   by decide⟩

/-- The three-entry sample of the spec: positive with confidence 0.8,
negative with confidence 0.2, neutral without confidence. -/
def newsC6 : List NewsEntry :=
  [⟨none, none, none, some "positive", some 0.8, none, none, some "up",
    some "src"⟩,
   ⟨none, none, none, some "negative", some 0.2, none, none, some "down",
    some "src"⟩,
   ⟨none, none, none, some "neutral", none, none, none, some "flat",
    some "src"⟩]

/-- C6: entry contributions are weight times confidence (bare weight when
no numeric confidence is present), the net score is their arithmetic mean
(0 when every entry is unknown), the bias thresholds are inclusive at
plus and minus 0.2, and the three-entry spec sample scores 0.2 with the
Bullish tilt label. -/
theorem C6_sentiment_score :
    (∀ e : NewsEntry, entry_score e =
      (sentiment_weight (entry_sentiment e)).map
        (fun w => w * (e.sentiment_confidence.getD 1))) ∧
    (∀ entries : List NewsEntry, entries.filterMap entry_score ≠ [] →
      news_net_score entries =
        (entries.filterMap entry_score).sum /
          ((entries.filterMap entry_score).length : ℚ)) ∧
    (∀ entries : List NewsEntry,
      (∀ e ∈ entries, sentiment_weight (entry_sentiment e) = none) →
      news_net_score entries = 0) ∧
    (∀ q : ℚ, ((0.2 : ℚ) ≤ q → bias_of_score q = "Bullish tilt") ∧
      (q ≤ (-0.2 : ℚ) → bias_of_score q = "Bearish tilt") ∧
      ((-0.2 : ℚ) < q → q < (0.2 : ℚ) →
        bias_of_score q = "Mixed/neutral bias")) ∧
    (news_net_score newsC6 = 0.2 ∧
     bias_of_score (news_net_score newsC6) = "Bullish tilt" ∧
     news_summary_line newsC6 =
       "Bullish tilt: +1 / -1 / =1 (net score +0.20).") := by
  refine ⟨fun e => ?_, fun entries h => ?_, fun entries h => ?_, fun q => ?_,
    by with_unfolding_all decide, by with_unfolding_all decide,
    by with_unfolding_all decide⟩
  · unfold entry_score
    cases hw : sentiment_weight (entry_sentiment e) with
    | none => simp
    | some w =>
      cases hc : e.sentiment_confidence with
      | none => simp [mul_one]
      | some c => simp
  · simp only [news_net_score]
    rw [if_neg (by simpa using h)]
  · have hnil : entries.filterMap entry_score = [] := by
      rw [List.filterMap_eq_nil_iff]
      intro e he
      simp [entry_score, h e he]
    simp [news_net_score, hnil]
  · refine ⟨fun h => ?_, fun h => ?_, fun h1 h2 => ?_⟩ <;>
      unfold bias_of_score
    · rw [if_pos h]
    · rw [if_neg (by linarith), if_pos h]
    · rw [if_neg (by linarith), if_neg (by linarith)]

/-- C6 witness: the hypothesis-bearing conjuncts applied at concrete
inputs - an all-unknown singleton scores 0 and the boundary score 0.2 is
labelled Bullish tilt. -/
theorem C6_sentiment_score_witness :
    news_net_score [emptyEntry] = 0 ∧
    bias_of_score (0.2 : ℚ) = "Bullish tilt" :=
  ⟨C6_sentiment_score.2.2.1 [emptyEntry] (by decide),
   (C6_sentiment_score.2.2.2.1 (0.2 : ℚ)).1 (by norm_num)⟩

/-- Once the candidate key entry is truthy, entries with empty timestamp
strings never replace it. -/
lemma select_key_aux_stable (rest : List NewsEntry) : ∀ (i j : Nat)
    (ke : NewsEntry), entryTruthy ke = true →
    (∀ x ∈ rest, entry_ts x = "") →
    select_key_aux (some (j, ke)) i rest = some (j, ke) := by
  induction rest with
  | nil => intro i j ke _ _; rfl
  | cons x xs ih =>
    intro i j ke htr hts
    have hx : entry_ts x = "" := hts x (by simp)
    simp only [select_key_aux, htr, hx]
    simp only [Bool.not_true, Bool.false_eq_true, if_false, beq_self_eq_true,
      Bool.not_true, Bool.false_and, if_false]
    exact ih (i + 1) j ke htr (fun y hy => hts y (by simp [hy]))

/-- C7, counterexample: for the non-empty all-unknown, timestamp-free news
list consisting of one empty entry, the aggregator returns a null key
entry (the trailing Python truthiness test turns the falsy dict into
None), not a non-null key entry equal to the first element. -/
theorem C7_counterexample :
    (summarize_news_sentiment 0 [emptyEntry]).map (fun r => r.2.2) =
      some none := by
  with_unfolding_all decide

/-- C7, amended: for every non-empty news list in which every entry has an
unrecognized or absent sentiment label, no entry has a derivable
timestamp, and every entry is truthy (a non-empty mapping), the
aggregator returns a non-null key entry equal to the first element. -/
theorem C7_key_entry_first (now : Int) (e : NewsEntry)
    (rest : List NewsEntry)
    (_hunk : ∀ x ∈ e :: rest, sentiment_weight (entry_sentiment x) = none)
    (hts : ∀ x ∈ e :: rest, entry_ts x = "")
    (htr : ∀ x ∈ e :: rest, entryTruthy x = true) :
    (summarize_news_sentiment now (e :: rest)).map (fun r => r.2.2) =
      some (some (0, e)) := by
  have hkey : select_key (e :: rest) = some (0, e) := by
    simp only [select_key, select_key_aux]
    exact select_key_aux_stable rest 1 0 e (htr e (by simp))
      (fun x hx => hts x (by simp [hx]))
  simp [summarize_news_sentiment, hkey, htr e (by simp)]

/-- First truthy all-unknown entry for the C7 witness. -/
def eC7a : NewsEntry :=
  ⟨none, none, none, none, none, none, none, some "headline x", none⟩

/-- Second truthy all-unknown entry for the C7 witness. -/
def eC7b : NewsEntry :=
  ⟨none, none, none, none, none, none, none, some "headline y", none⟩

/-- C7 witness: the amended statement on a concrete two-entry list. -/
theorem C7_key_entry_first_witness :
    (summarize_news_sentiment 0 [eC7a, eC7b]).map (fun r => r.2.2) =
      some (some (0, eC7a)) :=
  C7_key_entry_first 0 eC7a [eC7b] (by decide) (by decide) (by decide)

/-- C8: a configured symbol that is absent from the snapshot mapping
contributes zero lines - its block is empty and the whole document equals
the document composed with that symbol removed from the configured order,
everything else unchanged. -/
theorem C8_missing_snapshot (cfg : TradingConfig) (nc : NewsCache)
    (now : Int) (state : TradingState)
    (snaps : List (String × MarketSnapshot)) (l1 l2 : List String)
    (s : String) (hsym : cfg.SYMBOLS = l1 ++ s :: l2)
    (habs : List.lookup (cfg.SYMBOL_TO_COIN s) snaps = none) :
    symbol_block_lines cfg nc now snaps s = [] ∧
    create_trading_prompt cfg nc now state snaps =
      create_trading_prompt
        ⟨l1 ++ l2, cfg.SYMBOL_TO_COIN, cfg.CHECK_INTERVAL,
         cfg.TRADING_FEE_RATE⟩ nc now state snaps := by
  have hblock : symbol_block_lines cfg nc now snaps s = [] := by
    simp [symbol_block_lines, habs]
  refine ⟨hblock, ?_⟩
  unfold create_trading_prompt prompt_all_lines market_lines
  rw [hsym]
  simp only [List.flatMap_append, List.flatMap_cons, hblock,
    List.nil_append, List.append_nil]
  rfl

/-- Config with one live and one snapshot-less symbol, for witnesses. -/
def cfgC8 : TradingConfig := ⟨["AAA", "BBB"], (fun s => s), 300, 0.001⟩

/-- Empty news cache for witnesses. -/
def ncC8 : NewsCache := ⟨none, fun _ => []⟩

/-- Concrete state with no positions, for witnesses. -/
def stC8 : TradingState :=
  ⟨0, 1, some 1, some 2, some 3, some 4, some 5, some 6, []⟩

/-- Snapshot mapping covering only AAA, for witnesses. -/
def snapsC8 : List (String × MarketSnapshot) := [("AAA", snapC4)]

/-- C8 witness: dropping the snapshot-less symbol BBB leaves the document
unchanged. -/
theorem C8_missing_snapshot_witness :
    cfgC8.SYMBOLS = ["AAA"] ++ "BBB" :: [] ∧
    List.lookup (cfgC8.SYMBOL_TO_COIN "BBB") snapsC8 = none ∧
    create_trading_prompt cfgC8 ncC8 0 stC8 snapsC8 =
      create_trading_prompt
        ⟨["AAA"] ++ [], cfgC8.SYMBOL_TO_COIN, cfgC8.CHECK_INTERVAL,
         cfgC8.TRADING_FEE_RATE⟩ ncC8 0 stC8 snapsC8 :=
  ⟨rfl, by decide,
   (C8_missing_snapshot cfgC8 ncC8 0 stC8 snapsC8 ["AAA"] [] "BBB" rfl
     (by decide)).2⟩

/-- C9: the composed document is, in fixed order, the time and identity
preamble (elapsed whole minutes, current instant, invocation count), the
series-ordering disclaimer inside that preamble, the optional news
refresh line, the market blocks in configured order, the account block,
and the closing instruction line; an empty position mapping puts the
literal no-positions line (No open positions yet.) in the account block. -/
theorem C9_document_structure (cfg : TradingConfig) (nc : NewsCache)
    (now : Int) (state : TradingState)
    (snaps : List (String × MarketSnapshot)) :
    create_trading_prompt cfg nc now state snaps =
      String.intercalate ("\n")
        (preamble_lines cfg now state ++ refresh_lines nc ++
         market_lines cfg nc now snaps ++ account_lines cfg state snaps ++
         [closing_line]) ∧
    preamble_lines cfg now state =
      [ "It has been " ++ toString (minutes_running now state) ++
          " minutes since you started trading. ",
        "The current time is " ++ isoformatUtc now ++
          " and you\x27ve been invoked " ++
          toString state.invocation_count ++ " times. ",
        "Below is a variety of state data, price data, and predictive signals so you can discover alpha.",
        "ALL PRICE OR SIGNAL SERIES BELOW ARE ORDERED OLDEST → NEWEST.",
        "Timeframe note: Intraday series use " ++
          toString (interval_minutes cfg) ++
          "-minute intervals unless a different interval is explicitly mentioned.",
        dashLine,
        "CURRENT MARKET STATE FOR ALL COINS" ] ∧
    (state.positions = [] →
      "No open positions yet." ∈ account_lines cfg state snaps) := by
  refine ⟨rfl, rfl, fun h => ?_⟩
  simp [account_lines, h]

/-- C9 witness: the no-positions line is present for a concrete empty
position mapping. -/
theorem C9_document_structure_witness :
    stC8.positions = [] ∧
    "No open positions yet." ∈ account_lines cfgC8 stC8 snapsC8 :=
  ⟨rfl, (C9_document_structure cfgC8 ncC8 0 stC8 snapsC8).2.2 rfl⟩

/-- Empty-symbol config for the C1 counterexample. -/
def cfgC1 : TradingConfig := ⟨[], fun s => s, 300, 0.001⟩

/-- Empty news cache for the C1 counterexample. -/
def ncC1 : NewsCache := ⟨none, fun _ => []⟩

/-- Minimal state for the C1 counterexample. -/
def stC1 : TradingState := ⟨0, 1, none, none, none, none, none, none, []⟩

/-- C1, counterexample: two runs with identical state and market_snapshots
arguments produce different documents when the wall clock differs - the
composer reads datetime.now (and the news cache), so its output is not a
function of (state, market_snapshots) alone. -/
theorem C1_counterexample :
    create_trading_prompt cfgC1 ncC1 0 stC1 [] ≠
      create_trading_prompt cfgC1 ncC1 600000000 stC1 [] := by
  with_unfolding_all decide

/-- C1, amended: the composer is a pure function of its full input - state,
market_snapshots, the current instant and the news-cache contents; two
runs agreeing on all of these produce byte-identical documents. -/
theorem C1_determinism (cfg1 cfg2 : TradingConfig) (nc1 nc2 : NewsCache)
    (now1 now2 : Int) (st1 st2 : TradingState)
    (sn1 sn2 : List (String × MarketSnapshot)) (hc : cfg1 = cfg2)
    (hn : nc1 = nc2) (ht : now1 = now2) (hs : st1 = st2) (hm : sn1 = sn2) :
    create_trading_prompt cfg1 nc1 now1 st1 sn1 =
      create_trading_prompt cfg2 nc2 now2 st2 sn2 := by
  subst hc hn ht hs hm
  rfl

/-- C1 witness: determinism applied at a concrete input. -/
theorem C1_determinism_witness :
    create_trading_prompt cfgC1 ncC1 0 stC1 [] =
      create_trading_prompt cfgC1 ncC1 0 stC1 [] :=
  C1_determinism cfgC1 cfgC1 ncC1 ncC1 0 0 stC1 stC1 [] [] rfl rfl rfl rfl
    rfl
